import Mathlib

/-!
Verification of the SSH gateway in src/main.py.

The development is a shallow embedding of the program: the SessionStore
(the `sessions` dict), the active-bridge registry (the `ssh_clients` dict),
the on-disk credential files, the `SSHClient` bridge class, and the
`websocket_endpoint` protocol loop are modelled as pure Lean functions over
explicit state.  External effects (the websocket input stream, the paramiko
transport, the bytes a remote shell delivers during an output drain) are
passed in as oracle parameters carried by the inbound messages.
-/

namespace SshConnect

/-- Outbound event sent over the websocket: the send_json payloads of
src/main.py, tagged by their "type" field (output, prompt, error). -/
inductive Event
  | output (content : String)
  | prompt (content : String)
  | error (content : String)
deriving DecidableEq

/-- Dictionary lookup on an association list of strings; models a Python
dict read such as sessions[session_id] / the `in` test. -/
def lookupStr (k : String) : List (String × String) → Option String
  | [] => none
  | (a, b) :: rest => if a = k then some b else lookupStr k rest

/-- Dictionary key removal; models dict.pop(k, None) and os.remove. -/
def eraseKey (k : String) (l : List (String × String)) : List (String × String) :=
  l.filter (fun p => p.1 != k)

/-- Dictionary insert / overwrite; models d[k] = v. -/
def setKey (k v : String) (l : List (String × String)) : List (String × String) :=
  (k, v) :: eraseKey k l

/-- The filesystem is modelled as a map from path to file content.
Writing a file creates or overwrites it (the open(..., w) + write in the
connect handler). -/
def writeFile (path content : String) (files : List (String × String)) :
    List (String × String) :=
  setKey path content files

/-- Models os.path.exists. -/
def fileExists (path : String) (files : List (String × String)) : Bool :=
  (lookupStr path files).isSome

/-- Models os.remove. -/
def removeFile (path : String) (files : List (String × String)) :
    List (String × String) :=
  eraseKey path files

/-- The temporary credential path used by the connect handler and the
teardown code: the f-string id_ed25519_ followed by the session id. -/
def private_key_file (session_id : String) : String :=
  "id_ed25519_" ++ session_id

/-- The SSHClient bridge of src/main.py lines 23-55.  The paramiko channel
is opaque; what matters is whether it exists (self.channel = None until a
successful connect).  hostname and username are attributes assigned only by
a successful connect, so they are Options.  closed records that close() ran
on the underlying transport. -/
structure SSHClient where
  channel : Option Unit
  hostname : Option String
  username : Option String
  closed : Bool
deriving DecidableEq

/-- SSHClient.__init__: no channel, no host attributes, transport open. -/
def SSHClient.init : SSHClient :=
  { channel := none, hostname := none, username := none, closed := false }

/-- SSHClient.connect (lines 29-33).  The paramiko call is the external
transport capability: its outcome is the oracle argument.  On success the
channel is opened and hostname/username are assigned; on failure the
exception propagates to the caller and no field is assigned. -/
def SSHClient.connect (c : SSHClient) (hostname username : String)
    (transport : Except String Unit) : Except String SSHClient :=
  match transport with
  | Except.error e => Except.error e
  | Except.ok _ =>
      Except.ok { c with channel := some (), hostname := some hostname,
                         username := some username }

/-- SSHClient.close (lines 35-38): closes the channel if any and always
closes the transport. -/
def SSHClient.close (c : SSHClient) : SSHClient :=
  { c with closed := true }

/-- The drain loop of execute_command reads the available bytes in chunks
via channel.recv(4096): each read returns the next at most 4096 bytes of
the pending data, repeated while bytes remain. -/
def recvChunks : List Char → List (List Char)
  | [] => []
  | a :: rest => (a :: rest).take 4096 :: recvChunks ((a :: rest).drop 4096)
termination_by l => l.length
decreasing_by
  simp [List.length_drop]
  omega

/-- SSHClient.execute_command (lines 40-55).  pending is the oracle for the
bytes the remote shell has made available on the channel during the drain
(the asyncio.sleep settle interval is invisible to a pure model).  The
result is the updated client, the list of byte strings written to the
channel, and the events sent over the websocket, in emission order. -/
def SSHClient.execute_command (c : SSHClient) (command : String)
    (pending : String) : SSHClient × List String × List Event :=
  match c.channel with
  | none => (c, [], [Event.error "No active SSH session"])
  | some _ =>
      (c, [command ++ "\n"],
        (recvChunks pending.data).map (fun chunk => Event.output (String.mk chunk)) ++
          [Event.prompt ((c.username.getD "") ++ "@" ++ (c.hostname.getD "") ++ ":~$")])

/-- An inbound JSON message, decoded by its "command" field.  connect
carries the oracle outcome of the transport attempt; execute carries the
oracle bytes available on the channel during the drain; other is any
message whose "command" field is neither connect nor execute (including a
missing field). -/
inductive Message
  | connect (host username : String) (transport : Except String Unit)
  | execute (args : String) (pending : String)
  | other

/-- One item of the inbound websocket stream: a decoded message, or the
receive call raising WebSocketDisconnect, or the loop body raising any
other exception (a JSON decode failure in receive_json, or a transport
error during a command) which the endpoint does not catch. -/
inductive Inbound
  | msg (m : Message)
  | disconnect
  | fault

/-- The process-wide state the endpoint touches: the sessions dict
(SessionStore, id to private-key PEM), the ssh_clients dict (active-bridge
registry, modelled by its key set), and the on-disk files. -/
structure GatewayState where
  sessions : List (String × String)
  ssh_clients : List String
  files : List (String × String)
deriving DecidableEq

/-- Result of handling one decoded message inside the loop body. -/
structure StepResult where
  client : SSHClient
  state : GatewayState
  events : List Event
  writes : List String
deriving DecidableEq

/-- One iteration of the body of the while-loop of websocket_endpoint
(lines 98-114): dispatch on the "command" field.  connect writes the
session's key to the temporary file (open/write/chmod), attempts the
transport connection, and sends a prompt on success or an error event on
failure (the try/except around the branch).  execute delegates to
SSHClient.execute_command.  Any other command falls through the if/elif
with no effect at all. -/
def handleMessage (session_id : String) (c : SSHClient) (st : GatewayState) :
    Message → StepResult
  | Message.connect host username transport =>
      let st1 : GatewayState :=
        { st with files := (writeFile (private_key_file session_id)
            ((lookupStr session_id st.sessions).getD "") st.files) }
      match SSHClient.connect c host username transport with
      | Except.ok c2 =>
          { client := c2, state := st1,
            events := [Event.prompt (username ++ "@" ++ host ++ ":~$")], writes := [] }
      | Except.error e =>
          { client := c, state := st1, events := [Event.error e], writes := [] }
  | Message.execute args pending =>
      { client := (c.execute_command args pending).1, state := st,
        events := (c.execute_command args pending).2.2,
        writes := (c.execute_command args pending).2.1 }
  | Message.other => { client := c, state := st, events := [], writes := [] }

/-- How the while-loop ended: receive raised WebSocketDisconnect, the body
raised some other exception, or the modelled input stream ran out (the
session is still live, sitting in receive). -/
inductive LoopExit
  | disconnected
  | faulted
  | exhausted
deriving DecidableEq

/-- Accumulated result of running the while-loop on an input stream. -/
structure LoopResult where
  client : SSHClient
  state : GatewayState
  events : List Event
  writes : List String
  exit : LoopExit
deriving DecidableEq

/-- The while-loop of websocket_endpoint (lines 96-114), run over the
modelled inbound stream.  Processing is strictly sequential: the next
inbound item is not examined until the current message's step has produced
all its events. -/
def wsLoop (session_id : String) : SSHClient → GatewayState → List Inbound → LoopResult
  | c, st, [] =>
      { client := c, state := st, events := [], writes := [], exit := LoopExit.exhausted }
  | c, st, Inbound.disconnect :: _ =>
      { client := c, state := st, events := [], writes := [], exit := LoopExit.disconnected }
  | c, st, Inbound.fault :: _ =>
      { client := c, state := st, events := [], writes := [], exit := LoopExit.faulted }
  | c, st, Inbound.msg m :: rest =>
      let s := handleMessage session_id c st m
      let r := wsLoop session_id s.client s.state rest
      { client := r.client, state := r.state, events := s.events ++ r.events,
        writes := s.writes ++ r.writes, exit := r.exit }

/-- The finally block of websocket_endpoint (lines 119-122): remove the
temporary key file if it exists, then pop the session from the store. -/
def teardownFinally (session_id : String) (st : GatewayState) : GatewayState :=
  { st with
    files := (if fileExists (private_key_file session_id) st.files then
        removeFile (private_key_file session_id) st.files
      else st.files),
    sessions := eraseKey session_id st.sessions }

/-- How the whole endpoint invocation ended. -/
inductive Outcome
  | refused (code : Nat)
  | disconnected
  | faulted
  | running
deriving DecidableEq

/-- Observable result of one websocket_endpoint invocation: final process
state, events sent, bytes written to the channel, the bridge object if one
was created, and how it ended. -/
structure EndpointResult where
  state : GatewayState
  events : List Event
  writes : List String
  client : Option SSHClient
  outcome : Outcome
deriving DecidableEq

/-- What runs after the while-loop stops (lines 116-122).  Only a
WebSocketDisconnect is caught, so only that path closes the bridge and
pops it from the registry; any other exception skips the except block.
The finally block runs on both paths.  If the input stream was exhausted
the session is still live and no teardown has happened yet. -/
def finishEndpoint (session_id : String) (r : LoopResult) : EndpointResult :=
  match r.exit with
  | LoopExit.exhausted =>
      { state := r.state, events := r.events, writes := r.writes,
        client := some r.client, outcome := Outcome.running }
  | LoopExit.disconnected =>
      { state := (teardownFinally session_id
          { r.state with
            ssh_clients := r.state.ssh_clients.filter (fun x => x != session_id) }),
        events := r.events, writes := r.writes,
        client := some r.client.close, outcome := Outcome.disconnected }
  | LoopExit.faulted =>
      { state := teardownFinally session_id r.state,
        events := r.events, writes := r.writes,
        client := some r.client, outcome := Outcome.faulted }

/-- websocket_endpoint (lines 85-122): refuse with close code 1008 if the
session id is not in the store (before any bridge, registry entry or file
is created); otherwise accept, create the bridge, register it, run the
loop, and finish by the exception paths above. -/
def websocket_endpoint (session_id : String) (st : GatewayState)
    (inputs : List Inbound) : EndpointResult :=
  if lookupStr session_id st.sessions = none then
    { state := st, events := [], writes := [], client := none,
      outcome := Outcome.refused 1008 }
  else
    finishEndpoint session_id
      (wsLoop session_id SSHClient.init
        { st with ssh_clients :=
            (session_id :: st.ssh_clients.filter (fun x => x != session_id)) }
        inputs)

/-- Response model of the provisioning endpoint (lines 60-62): exactly two
fields, the public key and the session id. -/
structure GenerateKeyResponse where
  publicKey : String
  sessionId : String
deriving DecidableEq

/-- The freshly generated key pair, as encoded by the cryptography library
calls in generate_key: the unencrypted OpenSSH PEM of the private half and
the single-line authorized-key form of the public half. -/
structure Ed25519KeyPair where
  private_key_pem : String
  public_key_ssh : String
deriving DecidableEq

/-- The algorithm of the key-generation call on line 66
(Ed25519PrivateKey.generate). -/
inductive KeyAlgorithm
  | ed25519
  | rsa
  | ecdsa
deriving DecidableEq

def generatedKeyAlgorithm : KeyAlgorithm := KeyAlgorithm.ed25519

/-- The serialization parameters of the private_bytes call on lines 68-72:
PEM encoding, OpenSSH private format, and NoEncryption — i.e. no
passphrase, recorded here as encryption_algorithm = none. -/
structure PrivateBytesCall where
  encoding : String
  format : String
  encryption_algorithm : Option String
deriving DecidableEq

def generate_key_private_bytes : PrivateBytesCall :=
  { encoding := "PEM", format := "OpenSSH", encryption_algorithm := none }

/-- generate_key (lines 64-83).  Key generation and the uuid4 draw are the
external oracles (kp, session_id); the handler stores the private PEM in
the sessions dict under the new id and returns the response record built
from the public key and the id. -/
def generate_key (kp : Ed25519KeyPair) (session_id : String)
    (sessions : List (String × String)) :
    List (String × String) × GenerateKeyResponse :=
  (setKey session_id kp.private_key_pem sessions,
    { publicKey := kp.public_key_ssh, sessionId := session_id })

/-! Helper lemmas about the association-list dictionaries. -/

theorem lookupStr_setKey_self (k v : String) (l : List (String × String)) :
    lookupStr k (setKey k v l) = some v := by
  simp [setKey, lookupStr]

theorem lookupStr_eraseKey_self (k : String) (l : List (String × String)) :
    lookupStr k (eraseKey k l) = none := by
  induction l with
  | nil => rfl
  | cons p rest ih =>
      rcases p with ⟨a, b⟩
      by_cases h : a = k
      · subst h
        have h2 : eraseKey a ((a, b) :: rest) = eraseKey a rest := by
          simp [eraseKey, List.filter_cons]
        rw [h2]
        exact ih
      · simpa [eraseKey, List.filter_cons, h, lookupStr] using ih

theorem eraseKey_of_lookup_none (k : String) (l : List (String × String))
    (h : lookupStr k l = none) : eraseKey k l = l := by
  induction l with
  | nil => rfl
  | cons p rest ih =>
      rcases p with ⟨a, b⟩
      unfold lookupStr at h
      by_cases hak : a = k
      · rw [if_pos hak] at h
        exact absurd h (by simp)
      · rw [if_neg hak] at h
        have : eraseKey k rest = rest := ih h
        simpa [eraseKey, List.filter_cons, hak] using this

theorem not_mem_filter_bne (k : String) (l : List String) :
    k ∉ l.filter (fun x => x != k) := by
  intro hmem
  rcases List.mem_filter.mp hmem with ⟨_, hb⟩
  simp at hb

/-! Helper lemmas about the teardown code. -/

theorem teardownFinally_fileExists (session_id : String) (st : GatewayState) :
    fileExists (private_key_file session_id) (teardownFinally session_id st).files = false := by
  unfold teardownFinally fileExists removeFile
  by_cases h : (lookupStr (private_key_file session_id) st.files).isSome = true
  · simp [h, lookupStr_eraseKey_self]
  · simp only [Bool.not_eq_true] at h
    simp [h]

theorem teardownFinally_sessions (session_id : String) (st : GatewayState) :
    lookupStr session_id (teardownFinally session_id st).sessions = none := by
  unfold teardownFinally
  exact lookupStr_eraseKey_self session_id st.sessions

theorem teardownFinally_ssh_clients (session_id : String) (st : GatewayState) :
    (teardownFinally session_id st).ssh_clients = st.ssh_clients := rfl

/-- Claim C3: a session-scoped connection opened with a session id absent
from the SessionStore is refused with close code 1008, before any bridge
is created, any registry entry is made, or any file is written: the result
reports the refusal with no client, no events, no channel writes and the
process state exactly as it was. -/
theorem unknown_session_refused (session_id : String) (st : GatewayState)
    (inputs : List Inbound) (h : lookupStr session_id st.sessions = none) :
    websocket_endpoint session_id st inputs =
      { state := st, events := [], writes := [], client := none,
        outcome := Outcome.refused 1008 } := by
  simp [websocket_endpoint, h]

theorem unknown_session_refused_witness :
    lookupStr "x" (GatewayState.mk [] [] []).sessions = none ∧
    websocket_endpoint "x" (GatewayState.mk [] [] []) [] =
      { state := GatewayState.mk [] [] [], events := [], writes := [],
        client := none, outcome := Outcome.refused 1008 } :=
  ⟨rfl, unknown_session_refused "x" (GatewayState.mk [] [] []) [] rfl⟩

/-- Claim C4: an execute command issued while the bridge has no live
channel emits exactly one Error event with content "No active SSH
session", emits no Prompt and no Output event, writes nothing to any
channel, and leaves the bridge unchanged. -/
theorem execute_without_session (c : SSHClient) (args pending : String)
    (h : c.channel = none) :
    c.execute_command args pending = (c, [], [Event.error "No active SSH session"]) := by
  simp [SSHClient.execute_command, h]

theorem execute_without_session_witness :
    SSHClient.init.channel = none ∧
    SSHClient.init.execute_command "ls" "" =
      (SSHClient.init, [], [Event.error "No active SSH session"]) :=
  ⟨rfl, execute_without_session SSHClient.init "ls" "" rfl⟩

/-- Claim C10: an inbound message whose command field is neither connect
nor execute (including a missing field) produces no event, no channel
write, and no change to the bridge, the SessionStore, the registry or the
files: the loop behaves exactly as if the message had not been received. -/
theorem unknown_command_ignored (session_id : String) (c : SSHClient)
    (st : GatewayState) (rest : List Inbound) :
    wsLoop session_id c st (Inbound.msg Message.other :: rest) =
      wsLoop session_id c st rest := rfl

/-- Claim C6: a connect command whose transport attempt fails emits an
Error event carrying the underlying failure description, does not raise
out of the session loop, leaves the bridge exactly as it was (in
particular with no live channel if it had none), and the loop goes on to
process the remaining inputs, so a retried connect is handled; the only
other effect is the key file written before the attempt. -/
theorem connect_failure_recoverable (session_id host username e : String)
    (c : SSHClient) (st : GatewayState) (rest : List Inbound) :
    wsLoop session_id c st
        (Inbound.msg (Message.connect host username (Except.error e)) :: rest) =
      { wsLoop session_id c
          { st with files := (writeFile (private_key_file session_id)
              ((lookupStr session_id st.sessions).getD "") st.files) } rest
        with
        events := (Event.error e ::
          (wsLoop session_id c
            { st with files := (writeFile (private_key_file session_id)
                ((lookupStr session_id st.sessions).getD "") st.files) } rest).events) } := rfl

theorem recvChunks_length_le (s : List Char) :
    ∀ chunk ∈ recvChunks s, chunk.length ≤ 4096 := by
  induction s using recvChunks.induct with
  | case1 =>
      intro chunk hc
      simp [recvChunks] at hc
  | case2 a rest ih =>
      intro chunk hc
      rw [recvChunks] at hc
      rcases List.mem_cons.mp hc with h1 | h2
      · subst h1
        exact List.length_take_le 4096 (a :: rest)
      · exact ih chunk h2

/-- Claim C5: an execute command issued while the bridge is Ready writes
the command followed by a newline to the channel, then emits each
available chunk as its own Output event in read order (the events are the
chunk list mapped one-to-one, not a single buffered event), each chunk
read being at most 4096 bytes, and after the drain emits exactly one
Prompt event of the form username at hostname colon tilde dollar, whether
or not any Output event was produced. -/
theorem execute_ready_streams (c : SSHClient) (args pending u hst : String)
    (hch : c.channel = some ()) (hu : c.username = some u)
    (hh : c.hostname = some hst) :
    c.execute_command args pending =
      (c, [args ++ "\n"],
        (recvChunks pending.data).map (fun chunk => Event.output (String.mk chunk)) ++
          [Event.prompt (u ++ "@" ++ hst ++ ":~$")]) ∧
    ∀ chunk ∈ recvChunks pending.data, chunk.length ≤ 4096 := by
  constructor
  · simp [SSHClient.execute_command, hch, hu, hh]
  · exact recvChunks_length_le pending.data

theorem execute_ready_streams_witness :
    (SSHClient.mk (some ()) (some "h1") (some "u1") false).channel = some () ∧
    (SSHClient.mk (some ()) (some "h1") (some "u1") false).username = some "u1" ∧
    (SSHClient.mk (some ()) (some "h1") (some "u1") false).hostname = some "h1" ∧
    ((SSHClient.mk (some ()) (some "h1") (some "u1") false).execute_command "ls" "ok" =
      (SSHClient.mk (some ()) (some "h1") (some "u1") false, ["ls" ++ "\n"],
        (recvChunks ("ok").data).map (fun chunk => Event.output (String.mk chunk)) ++
          [Event.prompt ("u1" ++ "@" ++ "h1" ++ ":~$")]) ∧
      ∀ chunk ∈ recvChunks ("ok").data, chunk.length ≤ 4096) :=
  ⟨rfl, rfl, rfl,
    execute_ready_streams (SSHClient.mk (some ()) (some "h1") (some "u1") false)
      "ls" "ok" "u1" "h1" rfl rfl rfl⟩

/-- Claim C7: reading the private key from the SessionStore at connect
time does not consume or modify the store: across any run of the session
loop, whatever the commands, the sessions dict is untouched, so every
connect within the session's life reads the same key material; the entry
disappears only through the explicit pop performed by the teardown code. -/
theorem sessions_not_consumed (session_id : String) (c : SSHClient)
    (st : GatewayState) (inputs : List Inbound) :
    (wsLoop session_id c st inputs).state.sessions = st.sessions ∧
    (teardownFinally session_id st).sessions = eraseKey session_id st.sessions := by
  constructor
  · induction inputs generalizing c st with
    | nil => rfl
    | cons i rest ih =>
        cases i with
        | msg m =>
            have hm : (handleMessage session_id c st m).state.sessions = st.sessions := by
              cases m with
              | connect host username transport => cases transport <;> rfl
              | execute args pending => rfl
              | other => rfl
            calc (wsLoop session_id c st (Inbound.msg m :: rest)).state.sessions
                = (wsLoop session_id (handleMessage session_id c st m).client
                    (handleMessage session_id c st m).state rest).state.sessions := rfl
              _ = (handleMessage session_id c st m).state.sessions := ih _ _
              _ = st.sessions := hm
        | disconnect => rfl
        | fault => rfl
  · rfl

/-- Claim C8: a provisioning call stores the unencrypted private-key
encoding in the SessionStore under the freshly drawn session id — the
store afterwards is exactly the old store plus that one entry — and
returns to the caller exactly the public key and the session id (the
response record has no other field, so the private key is never part of
the returned value); the generated key pair is Ed25519 and the private
half is serialized with no encryption, i.e. no passphrase. -/
theorem generate_key_stores_and_returns (kp : Ed25519KeyPair)
    (session_id : String) (sessions : List (String × String))
    (hfresh : lookupStr session_id sessions = none) :
    (generate_key kp session_id sessions).1 =
      (session_id, kp.private_key_pem) :: sessions ∧
    (generate_key kp session_id sessions).2 =
      { publicKey := kp.public_key_ssh, sessionId := session_id } ∧
    lookupStr session_id (generate_key kp session_id sessions).1 =
      some kp.private_key_pem ∧
    generatedKeyAlgorithm = KeyAlgorithm.ed25519 ∧
    generate_key_private_bytes.encryption_algorithm = none := by
  refine ⟨?_, rfl, ?_, rfl, rfl⟩
  · simp [generate_key, setKey, eraseKey_of_lookup_none _ _ hfresh]
  · exact lookupStr_setKey_self session_id kp.private_key_pem sessions

theorem generate_key_stores_and_returns_witness :
    lookupStr "sid1" ([] : List (String × String)) = none ∧
    ((generate_key (Ed25519KeyPair.mk "PEMKEY" "ssh-ed25519 AAAA") "sid1" []).1 =
        (("sid1", "PEMKEY") :: []) ∧
      (generate_key (Ed25519KeyPair.mk "PEMKEY" "ssh-ed25519 AAAA") "sid1" []).2 =
        { publicKey := "ssh-ed25519 AAAA", sessionId := "sid1" } ∧
      lookupStr "sid1" (generate_key (Ed25519KeyPair.mk "PEMKEY" "ssh-ed25519 AAAA") "sid1" []).1 =
        some "PEMKEY" ∧
      generatedKeyAlgorithm = KeyAlgorithm.ed25519 ∧
      generate_key_private_bytes.encryption_algorithm = none) :=
  ⟨rfl, generate_key_stores_and_returns
    (Ed25519KeyPair.mk "PEMKEY" "ssh-ed25519 AAAA") "sid1" [] rfl⟩

/-- Claim C9: within a single session the loop is strictly sequential —
running the loop on a block of decoded commands followed by any further
input emits every event of the block, in block order, before any event
produced by the further input: the event trace decomposes as the block's
trace followed by the trace of the continuation started from the state the
block left behind.  In particular no Output or Prompt event of command
N+1 precedes the Prompt event of command N. -/
theorem sequential_processing (session_id : String) (ms : List Message)
    (c : SSHClient) (st : GatewayState) (rest : List Inbound) :
    (wsLoop session_id c st (List.map Inbound.msg ms ++ rest)).events =
      (wsLoop session_id c st (List.map Inbound.msg ms)).events ++
        (wsLoop session_id
            (wsLoop session_id c st (List.map Inbound.msg ms)).client
            (wsLoop session_id c st (List.map Inbound.msg ms)).state rest).events := by
  induction ms generalizing c st with
  | nil => rfl
  | cons m ms ih =>
      simp only [List.map_cons, List.cons_append, wsLoop, List.append_eq]
      rw [ih]
      rw [List.append_assoc]

/-- Claim C1 counterexample: a termination of the session by an exception
other than WebSocketDisconnect (a transport error during a command, or a
JSON decode failure in receive — both terminate the loop) runs only the
finally block; at the explicit input below the session ends faulted with
the bridge still registered under its id and the bridge not closed, so it
is false that all four cleanup actions run on every termination. -/
theorem cleanup_counterexample :
    (websocket_endpoint "s" (GatewayState.mk [("s", "KEY")] [] [])
        [Inbound.fault]).outcome = Outcome.faulted ∧
    (websocket_endpoint "s" (GatewayState.mk [("s", "KEY")] [] [])
        [Inbound.fault]).state.ssh_clients = ["s"] ∧
    (websocket_endpoint "s" (GatewayState.mk [("s", "KEY")] [] [])
        [Inbound.fault]).client = some SSHClient.init ∧
    SSHClient.init.closed = false := by
  decide

/-- Claim C1 amended: when the session loop terminates, the temporary key
file removal and the SessionStore removal always run, on both the
disconnect path and the path of any other exception; the other two cleanup
actions — closing the ShellBridge and deregistering it from the
active-bridge registry — run only when the termination is a client
disconnect (WebSocketDisconnect), in which case all four run. -/
theorem session_teardown_cleanup (session_id : String) (st : GatewayState)
    (inputs : List Inbound)
    (hin : ¬ lookupStr session_id st.sessions = none) :
    (((websocket_endpoint session_id st inputs).outcome = Outcome.disconnected ∨
        (websocket_endpoint session_id st inputs).outcome = Outcome.faulted) →
      fileExists (private_key_file session_id)
          (websocket_endpoint session_id st inputs).state.files = false ∧
      lookupStr session_id
          (websocket_endpoint session_id st inputs).state.sessions = none) ∧
    ((websocket_endpoint session_id st inputs).outcome = Outcome.disconnected →
      session_id ∉ (websocket_endpoint session_id st inputs).state.ssh_clients ∧
      (websocket_endpoint session_id st inputs).client.map SSHClient.closed =
        some true) := by
  have key : ∀ r : LoopResult,
      (((finishEndpoint session_id r).outcome = Outcome.disconnected ∨
          (finishEndpoint session_id r).outcome = Outcome.faulted) →
        fileExists (private_key_file session_id)
            (finishEndpoint session_id r).state.files = false ∧
        lookupStr session_id
            (finishEndpoint session_id r).state.sessions = none) ∧
      ((finishEndpoint session_id r).outcome = Outcome.disconnected →
        session_id ∉ (finishEndpoint session_id r).state.ssh_clients ∧
        (finishEndpoint session_id r).client.map SSHClient.closed = some true) := by
    intro r
    cases hx : r.exit with
    | disconnected =>
        simp [finishEndpoint, hx, teardownFinally_fileExists, teardownFinally_sessions,
          teardownFinally_ssh_clients, SSHClient.close, not_mem_filter_bne]
    | faulted =>
        simp [finishEndpoint, hx, teardownFinally_fileExists, teardownFinally_sessions]
    | exhausted =>
        simp [finishEndpoint, hx]
  simp only [websocket_endpoint, if_neg hin]
  exact key _

theorem session_teardown_cleanup_witness :
    (¬ lookupStr "s" (GatewayState.mk [("s", "KEY")] [] []).sessions = none) ∧
    ((((websocket_endpoint "s" (GatewayState.mk [("s", "KEY")] [] [])
            [Inbound.disconnect]).outcome = Outcome.disconnected ∨
        (websocket_endpoint "s" (GatewayState.mk [("s", "KEY")] [] [])
            [Inbound.disconnect]).outcome = Outcome.faulted) →
      fileExists (private_key_file "s")
          (websocket_endpoint "s" (GatewayState.mk [("s", "KEY")] [] [])
            [Inbound.disconnect]).state.files = false ∧
      lookupStr "s"
          (websocket_endpoint "s" (GatewayState.mk [("s", "KEY")] [] [])
            [Inbound.disconnect]).state.sessions = none) ∧
    ((websocket_endpoint "s" (GatewayState.mk [("s", "KEY")] [] [])
          [Inbound.disconnect]).outcome = Outcome.disconnected →
      "s" ∉ (websocket_endpoint "s" (GatewayState.mk [("s", "KEY")] [] [])
          [Inbound.disconnect]).state.ssh_clients ∧
      (websocket_endpoint "s" (GatewayState.mk [("s", "KEY")] [] [])
          [Inbound.disconnect]).client.map SSHClient.closed = some true)) :=
  ⟨by decide, session_teardown_cleanup "s" (GatewayState.mk [("s", "KEY")] [] [])
    [Inbound.disconnect] (by decide)⟩

/-- Claim C2 counterexample: at the explicit input below a connect command
succeeds and its handling completes — the loop is back awaiting the next
command — yet the temporary key file still exists on disk, so it is false
that the key file is removed by the time the connect handling completes. -/
theorem key_file_counterexample :
    (websocket_endpoint "s" (GatewayState.mk [("s", "KEY")] [] [])
        [Inbound.msg (Message.connect "h" "u" (Except.ok ()))]).outcome =
      Outcome.running ∧
    fileExists (private_key_file "s")
      (websocket_endpoint "s" (GatewayState.mk [("s", "KEY")] [] [])
        [Inbound.msg (Message.connect "h" "u" (Except.ok ()))]).state.files = true := by
  decide

/-- Claim C2 amended: the key file is written with the session's key
material before every connect attempt and is still on disk when the
connect command's handling completes, whatever the transport outcome; it
is removed only by the teardown code at session end, which always leaves
the file absent. -/
theorem connect_leaves_key_file (session_id host username : String)
    (t : Except String Unit) (c : SSHClient) (st : GatewayState) :
    lookupStr (private_key_file session_id)
        (wsLoop session_id c st
          [Inbound.msg (Message.connect host username t)]).state.files =
      some ((lookupStr session_id st.sessions).getD "") ∧
    ∀ st2 : GatewayState,
      fileExists (private_key_file session_id)
        (teardownFinally session_id st2).files = false := by
  constructor
  · cases t with
    | ok v =>
        simp [wsLoop, handleMessage, SSHClient.connect, writeFile, lookupStr_setKey_self]
    | error e =>
        simp [wsLoop, handleMessage, SSHClient.connect, writeFile, lookupStr_setKey_self]
  · intro st2
    exact teardownFinally_fileExists session_id st2

end SshConnect
